import Mathlib

/-!
Verification of the Ticket & Bulk-Coordination Engine of the ModMail bot
(`modmail.py`) against its natural-language specification.

The Python source is shallowly embedded: SQLite tables become association
lists, the Discord platform becomes an explicit environment of oracles
(channel caches, fetches, message deliveries), exceptions become `Except`
or explicit outcome constructors, and each relevant Python function is
translated into an executable Lean definition of the same name.
-/

set_option maxHeartbeats 1000000

namespace ModMail

/-! ## Python string primitives

Lean's own `String.trim`, `String.toLower` and `String.startsWith` are
implemented by well-founded recursion and do not reduce in the kernel, so
the Python string methods `str.strip`, `str.lower` and `str.startswith`
are modelled structurally over the character list of the string. -/

/-- Whitespace recognised by Python's `str.strip()`. -/
def pyIsSpace (c : Char) : Bool :=
  c = ' ' ∨ c = '\t' ∨ c = '\n' ∨ c = '\r' ∨ c = '\x0b' ∨ c = '\x0c'

/-- Drop of leading whitespace from a character list. -/
def dropSpaces : List Char → List Char
  | [] => []
  | c :: rest => if pyIsSpace c then dropSpaces rest else c :: rest

/-- Model of Python `str.strip()`: drop leading and trailing whitespace. -/
def pyStrip (s : String) : String :=
  String.mk ((dropSpaces ((dropSpaces s.data).reverse)).reverse)

/-- ASCII lower-casing of one character (as `str.lower` acts on the labels
appearing in this program). -/
def lowerChar (c : Char) : Char :=
  if 'A' ≤ c ∧ c ≤ 'Z' then Char.ofNat (c.toNat + 32) else c

/-- Model of Python `str.lower()`. -/
def pyLower (s : String) : String := String.mk (s.data.map lowerChar)

/-- Model of Python `str.startswith(pre)`. -/
def pyStartswith (s pre : String) : Bool := pre.data.isPrefixOf s.data

/-! ## Association-list helpers (model of Python `dict` / SQLite rows) -/

/-- Lookup of the first value stored under a key (model of `dict.get`). -/
def assocGet {α : Type} (l : List (String × α)) (k : String) : Option α :=
  match l with
  | [] => none
  | (k1, v1) :: rest => if k1 = k then some v1 else assocGet rest k

/-- Overwrite-or-append of a key/value pair (model of `dict[k] = v`). -/
def assocSet {α : Type} (l : List (String × α)) (k : String) (v : α) : List (String × α) :=
  match l with
  | [] => [(k, v)]
  | (k1, v1) :: rest => if k1 = k then (k, v) :: rest else (k1, v1) :: assocSet rest k v

/-! ## Translation cache (`translation_cache`, `modmail.py` lines 394-431)

The in-memory cache is a map from source text to a map from a normalised
language key to the stored translation.  Persistence to
`translations.json` mirrors the in-memory map losslessly and is not
modelled separately. -/

/-- Model of the in-memory `translation_cache` dictionary. -/
abbrev TransCache := List (String × List (String × String))

/-- Translation of `normalise_language_label` (lines 397-402): a consistent,
lower-case language label for cache lookups.  `None` and the empty string
are both falsy in Python and map to the empty label. -/
def normalise_language_label (language : Option String) : String :=
  match language with
  | none => ""
  | some l => if l = "" then "" else pyLower (pyStrip l)

/-- Translation of `get_cached_translation` (lines 405-416).  Note that the
source guards only on `not text` (the empty string), not on
whitespace-only text, and that an empty per-text entry dictionary is falsy
and treated as a miss. -/
def get_cached_translation (cache : TransCache) (text : String) (language : Option String) :
    Option String :=
  if text = "" then none
  else
    let language_key := normalise_language_label language
    if language_key = "" then none
    else
      match assocGet cache text with
      | none => none
      | some cached_entry =>
        if cached_entry = [] then none
        else assocGet cached_entry language_key

/-- Translation of `cache_translation` (lines 419-431).  The write is a
no-op for a falsy or whitespace-only translation and for a blank language
key; otherwise it upserts under the normalised language key.  The
surrounding asyncio lock serialises the read-modify-persist sequence and
is invisible to this sequential model. -/
def cache_translation (cache : TransCache) (text : String) (language : Option String)
    (translation : String) : TransCache :=
  if translation = "" ∨ pyStrip translation = "" then cache
  else
    let language_key := normalise_language_label language
    if language_key = "" then cache
    else
      let stored := (assocGet cache text).getD []
      assocSet cache text (assocSet stored language_key translation)

/-! ## Language helpers (`language_is_english`, `translate_to_language`) -/

/-- Translation of `language_is_english` (lines 1677-1687). -/
def language_is_english (language : Option String) : Bool :=
  match language with
  | none => true
  | some l =>
    let normalised := pyLower (pyStrip l)
    if normalised = "" then true
    else if normalised ∈ ["english", "en", "en-us", "en-gb", "en-uk", "en (us)", "en (uk)",
        "unknown"] then true
    else pyStartswith normalised "en"

/-- Outcome of one call to the GPT-4o translation collaborator: either the
raw model response or a raised exception (every exception is caught by the
caller). -/
abbrev ModelOracle := String → Option String → Except Unit String

/-- Fresh-translation path of `translate_to_language` (lines 1655-1674):
invoke the model, strip the response, cache it when it is truthy and
differs from the source text, and fall back to the input on any
exception. -/
def translateFresh (model : ModelOracle) (cache : TransCache) (text : String)
    (language : Option String) : String × TransCache :=
  match model text language with
  | Except.error _ => (text, cache)
  | Except.ok raw =>
    let translated := pyStrip raw
    if translated ≠ "" ∧ translated ≠ text then
      (translated, cache_translation cache text language translated)
    else (translated, cache)

/-- Translation of `translate_to_language` (lines 1644-1674).  The Python
parameter is annotated `str` but every operation on it is `None`-safe, so
the model accepts an optional label.  Returns the produced text together
with the possibly-updated translation cache. -/
def translate_to_language (model : ModelOracle) (cache : TransCache) (text : String)
    (language : Option String) : String × TransCache :=
  if pyStrip text = "" then (text, cache)
  else if language_is_english language then (text, cache)
  else
    match get_cached_translation cache text language with
    | some cached => if cached = "" then translateFresh model cache text language
        else (cached, cache)
    | none => translateFresh model cache text language

/-- Translation of `get_translation_notice` (lines 1699-1702). -/
def get_translation_notice (model : ModelOracle) (cache : TransCache)
    (language : Option String) : String × TransCache :=
  translate_to_language model cache
    "This message was translated using AI and may contain mistakes" language

/-! ## Platform environment

Discord is an external collaborator whose state is modelled as a bundle of
oracles.  Exceptions a platform call may raise become explicit error
values; a Python `except` clause becomes a `match` on them. -/

/-- Platform channel object (a `discord.Thread` when `isThread` holds). -/
structure Chan where
  id : Int
  isThread : Bool
  archived : Bool
  parentId : Int
deriving DecidableEq, Repr

/-- Exceptions raised by channel fetches: `discord.NotFound` is a subclass
of `discord.HTTPException`, kept separate so catch clauses stay visible. -/
inductive PFErr
  | notFound
  | httpError
deriving DecidableEq, Repr

/-- Outcome of `user.send`: delivered, `discord.Forbidden` (blocked DMs),
or another `discord.HTTPException` that `Forbidden` does not cover. -/
inductive SendOutcome
  | delivered
  | forbidden
  | httpError
deriving DecidableEq, Repr

/-- Exceptions raised by forum thread creation: the Server-Discovery
content-filter rejection (retried with a generic name) or any other
`discord.HTTPException` (re-raised). -/
inductive CreateErr
  | discoveryFilter
  | otherHttp
deriving DecidableEq, Repr

/-- Static bot configuration fields used by the modelled functions. -/
structure Config where
  forumChannelId : Int
  guildId : Int
deriving DecidableEq, Repr

/-- Oracles describing the platform state an invocation runs against.
Each field corresponds to one fallible collaborator call site. -/
structure Env where
  /-- Result of `bot.get_channel` (local channel cache). -/
  getChannel : Int → Option Chan
  /-- Whether `bot.get_guild(config.guild_id)` finds the guild. -/
  guildExists : Bool
  /-- Result of `guild.get_thread` (guild-scoped thread cache). -/
  guildGetThread : Int → Option Chan
  /-- Result of `bot.fetch_channel` (direct platform fetch). -/
  fetchChannel : Int → Except PFErr Chan
  /-- Result of `guild.fetch_channel` (used by `send` and `on_message`). -/
  guildFetchChannel : Int → Except PFErr Chan
  /-- Whether `thread.edit(archived=False, locked=False)` succeeds. -/
  editOk : Int → Bool
  /-- Whether `bot.get_user or bot.fetch_user` yields the user. -/
  fetchUserOk : Int → Bool
  /-- Outcome of `user.send` keyed by user id. -/
  dm : Int → SendOutcome
  /-- Whether `thread.send` into the ticket thread succeeds. -/
  threadPost : Int → Bool
  /-- The GPT-4o translation collaborator. -/
  model : ModelOracle
  /-- Whether the platform calls of the close path after the registry
  mutation (closing notice, transcript upload, thread deletion) all
  succeed for a given thread id. -/
  closePlatformOk : Int → Bool
  /-- Result of `forum_channel.create_thread` keyed by user id. -/
  createThread : Int → Except CreateErr Chan
  /-- Result of the generic-name retry after a discovery-filter reject. -/
  createThreadRetry : Int → Except Unit Chan
  /-- Time-indexed result of `resolve_thread` during the post-creation
  readiness retries (the platform state drifts between attempts). -/
  readyAttempts : Nat → Option Chan
  /-- Whether the post-creation log-channel send succeeds. -/
  logSendOk : Bool
  /-- Whether the target user shares a guild with the bot. -/
  mutualGuild : Int → Bool
  /-- The bot's own user id. -/
  botUserId : Int
  /-- The guild attachment size limit used by the `send` command. -/
  filesizeLimit : Nat
  /-- Whether `require_forum_channel` finds the configured forum. -/
  forumOk : Bool
  /-- Moderator answer to the invalid-user-association confirmation
  buttons (`none` models the timeout). -/
  confirmClose : Option Bool

/-! ## Ticket registry and group tag index (`tickets.db`)

The `tickets(user_id, channel_id)` and
`group_tags(group_name COLLATE NOCASE, thread_id)` tables become lists of
rows in insertion order. -/

/-- State of the two persisted tables in `tickets.db`. -/
structure TicketsDB where
  tickets : List (Int × Int)
  groupTags : List (String × Int)
deriving DecidableEq, Repr

/-- Case-insensitive comparison used by `COLLATE NOCASE` on group names. -/
def nocaseEq (a b : String) : Bool := pyLower a = pyLower b

/-- Query `SELECT channel_id FROM tickets WHERE user_id=? ... fetchone()`. -/
def ticketsLookupByUser (db : TicketsDB) (userId : Int) : Option Int :=
  (db.tickets.find? (fun r => r.1 == userId)).map (fun r => r.2)

/-- Query `SELECT user_id FROM tickets WHERE channel_id=? ... fetchone()`. -/
def ticketsLookupByChannel (db : TicketsDB) (channelId : Int) : Option Int :=
  (db.tickets.find? (fun r => r.2 == channelId)).map (fun r => r.1)

/-- Statement `DELETE FROM tickets WHERE channel_id=?`. -/
def ticketsDeleteByChannel (db : TicketsDB) (channelId : Int) : TicketsDB :=
  { db with tickets := db.tickets.filter (fun r => r.2 != channelId) }

/-- Statement `INSERT INTO tickets VALUES (?, ?)`. -/
def ticketsInsert (db : TicketsDB) (userId channelId : Int) : TicketsDB :=
  { db with tickets := db.tickets ++ [(userId, channelId)] }

/-- Translation of `add_thread_to_group` (lines 711-720):
`INSERT OR REPLACE` under the case-insensitive primary key. -/
def add_thread_to_group (db : TicketsDB) (groupName : String) (threadId : Int) : TicketsDB :=
  { db with groupTags :=
      db.groupTags.filter (fun r => !(nocaseEq r.1 groupName && r.2 == threadId))
        ++ [(groupName, threadId)] }

/-- Translation of `get_group_threads` (lines 724-730). -/
def get_group_threads (db : TicketsDB) (groupName : String) : List Int :=
  (db.groupTags.filter (fun r => nocaseEq r.1 groupName)).map (fun r => r.2)

/-- Translation of `remove_thread_from_groups` (lines 733-739). -/
def remove_thread_from_groups (db : TicketsDB) (threadId : Int) : TicketsDB :=
  { db with groupTags := db.groupTags.filter (fun r => r.2 != threadId) }

/-- Translation of `remove_group` (lines 742-748). -/
def remove_group (db : TicketsDB) (groupName : String) : TicketsDB :=
  { db with groupTags := db.groupTags.filter (fun r => !nocaseEq r.1 groupName) }

/-! ## Thread resolver (`resolve_thread`, `ensure_thread_ready`,
`ensure_thread_open`) -/

/-- Helper for the repeated `isinstance(thread, discord.Thread)` check. -/
def chanAsThread (c : Option Chan) : Option Chan :=
  match c with
  | some ch => if ch.isThread then some ch else none
  | none => none

/-- Translation of `resolve_thread` (lines 667-682) in an explicit
exception monad: the local channel cache, then the guild thread cache,
then `bot.fetch_channel` whose `NotFound`/`HTTPException` errors are
caught and mapped to `None`; a fetched non-thread channel is also
`None`. -/
def resolve_thread_exc (env : Env) (threadId : Int) : Except PFErr (Option Chan) :=
  match chanAsThread (env.getChannel threadId) with
  | some t => Except.ok (some t)
  | none =>
    match (if env.guildExists then chanAsThread (env.guildGetThread threadId) else none) with
    | some t => Except.ok (some t)
    | none =>
      match env.fetchChannel threadId with
      | Except.error _ => Except.ok none
      | Except.ok c => Except.ok (if c.isThread then some c else none)

/-- Total wrapper for callers of `resolve_thread` (justified by the
no-raise theorem for claim C7). -/
def resolveT (env : Env) (threadId : Int) : Option Chan :=
  match resolve_thread_exc env threadId with
  | Except.ok r => r
  | Except.error _ => none

/-- Translation of `ensure_thread_open` (lines 700-708): best-effort
un-archive whose `HTTPException` is swallowed. -/
def ensure_thread_open (env : Env) (thread : Chan) : Chan :=
  if thread.archived then
    if env.editOk thread.id then { thread with archived := false } else thread
  else thread

/-- Retry loop of `ensure_thread_ready` (lines 692-696): `retriesLeft`
bounded attempts, `attemptIndex` numbering the resolve calls made so
far. -/
def ensure_thread_ready_loop (attempt : Nat → Option Chan) (thread : Chan) :
    Nat → Nat → Chan
  | 0, _ => thread
  | retriesLeft + 1, attemptIndex =>
    match attempt attemptIndex with
    | some resolved => resolved
    | none => ensure_thread_ready_loop attempt thread retriesLeft (attemptIndex + 1)

/-- Translation of `ensure_thread_ready` (lines 685-697): one immediate
resolution attempt, then three retries with a fixed 0.25 s backoff,
falling back to the original handle.  `attempt k` is the result of the
`k`-th `resolve_thread` call against the drifting platform state. -/
def ensure_thread_ready (attempt : Nat → Option Chan) (thread : Chan) : Chan :=
  match attempt 0 with
  | some resolved => resolved
  | none => ensure_thread_ready_loop attempt thread 3 1

/-! ## Payload delivery and attachments -/

/-- Translation of `gather_attachment_payloads` (lines 1079-1087) over
attachments given as (filename, size) pairs; an oversize attachment
raises `ValueError(filename)`. -/
def gather_attachment_payloads (attachments : List (String × Nat)) (sizeLimit : Option Nat) :
    Except String (List (String × Nat)) :=
  match attachments with
  | [] => Except.ok []
  | (filename, size) :: rest =>
    match sizeLimit with
    | some limit =>
      if size > limit then Except.error filename
      else
        match gather_attachment_payloads rest sizeLimit with
        | Except.error e => Except.error e
        | Except.ok payloads => Except.ok ((filename, size) :: payloads)
    | none =>
      match gather_attachment_payloads rest sizeLimit with
      | Except.error e => Except.error e
      | Except.ok payloads => Except.ok ((filename, size) :: payloads)

/-- Translation of `deliver_modmail_payload` (lines 962-1001).  The DM to
the user catches only `discord.Forbidden`; any other `HTTPException`
propagates (`Except.error`).  The mirror post into the ticket thread
catches every `HTTPException`.  Embed construction carries no state and
is omitted. -/
def deliver_modmail_payload (env : Env) (userId : Int) (threadId : Int) :
    Except Unit (Bool × Option String) :=
  match env.dm userId with
  | SendOutcome.forbidden => Except.ok (false, some "DMs blocked or disabled.")
  | SendOutcome.httpError => Except.error ()
  | SendOutcome.delivered =>
    if env.threadPost threadId then Except.ok (true, none)
    else Except.ok (false, some "Failed to post inside the ticket thread.")

/-! ## Ticket creation and the single-ticket entry points -/

/-- Shared tail of `ticket_creator` (lines 598-608): readiness check on
the created thread, registry insert, then the log-channel send whose
failure would propagate after the insert. -/
def ticket_creator_finish (env : Env) (db : TicketsDB) (userId : Int) (created : Chan) :
    Except Unit Chan × TicketsDB :=
  let thread := ensure_thread_ready env.readyAttempts created
  let db1 := ticketsInsert db userId thread.id
  if env.logSendOk then (Except.ok thread, db1) else (Except.error (), db1)

/-- Translation of `ticket_creator` (lines 546-608).  Thread naming, the
archive-duration choice and the embeds have no registry effect and are
omitted; the Server-Discovery content-filter rejection retries once with
a generic name and every other creation failure propagates. -/
def ticket_creator (env : Env) (db : TicketsDB) (userId : Int) :
    Except Unit Chan × TicketsDB :=
  match env.createThread userId with
  | Except.ok created => ticket_creator_finish env db userId created
  | Except.error CreateErr.discoveryFilter =>
    match env.createThreadRetry userId with
    | Except.ok created => ticket_creator_finish env db userId created
    | Except.error _ => (Except.error (), db)
  | Except.error CreateErr.otherHttp => (Except.error (), db)

/-- Translation of `get_or_create_ticket_for_user` (lines 1053-1076):
reuse the registered thread when it still resolves (reopening it if
archived), purge the stale row and create a fresh ticket when it does
not. -/
def get_or_create_ticket_for_user (env : Env) (db : TicketsDB) (userId : Int) :
    Except Unit Chan × TicketsDB :=
  match ticketsLookupByUser db userId with
  | some threadId =>
    match resolveT env threadId with
    | none => ticket_creator env (ticketsDeleteByChannel db threadId) userId
    | some thread => (Except.ok (ensure_thread_open env thread), db)
  | none => ticket_creator env db userId

/-- Result reported by the staff `send` command. -/
inductive SendCmdResult
  | selfDM
  | alreadyExists (channelId : Int)
  | notInGuild
  | attachmentTooLarge
  | dmForbidden
  | sent (threadId : Int)
  | raised
deriving DecidableEq, Repr

/-- Continuation of the `send` command after the existing-ticket lookup
(lines 1974-2011): mutual-guild check, attachment ceiling, the anonymous
DM (only `Forbidden` is caught), then `ticket_creator` and the mirror
post into the new thread. -/
def send_command_rest (env : Env) (db : TicketsDB) (targetUserId : Int)
    (attachments : List (String × Nat)) : SendCmdResult × TicketsDB :=
  if !env.mutualGuild targetUserId then (SendCmdResult.notInGuild, db)
  else if attachments.any (fun a => a.2 ≥ env.filesizeLimit) then
    (SendCmdResult.attachmentTooLarge, db)
  else
    match env.dm targetUserId with
    | SendOutcome.forbidden => (SendCmdResult.dmForbidden, db)
    | SendOutcome.httpError => (SendCmdResult.raised, db)
    | SendOutcome.delivered =>
      match ticket_creator env db targetUserId with
      | (Except.error _, db1) => (SendCmdResult.raised, db1)
      | (Except.ok thread, db1) =>
        if env.threadPost thread.id then (SendCmdResult.sent thread.id, db1)
        else (SendCmdResult.raised, db1)

/-- Translation of the staff `send` command (lines 1943-2011).  The
existing-ticket lookup uses `bot.get_channel or ctx.guild.get_thread`
(without a thread-type check) and falls back to `ctx.guild.fetch_channel`
whose failure purges the stale registry row. -/
def send_command (env : Env) (db : TicketsDB) (targetUserId : Int)
    (attachments : List (String × Nat)) : SendCmdResult × TicketsDB :=
  if targetUserId = env.botUserId then (SendCmdResult.selfDM, db)
  else
    match ticketsLookupByUser db targetUserId with
    | some channelId =>
      match (match env.getChannel channelId with
             | some c => some c
             | none => env.guildGetThread channelId) with
      | some _ => (SendCmdResult.alreadyExists channelId, db)
      | none =>
        match env.guildFetchChannel channelId with
        | Except.ok _ => (SendCmdResult.alreadyExists channelId, db)
        | Except.error _ =>
          send_command_rest env (ticketsDeleteByChannel db channelId) targetUserId attachments
    | none => send_command_rest env db targetUserId attachments

/-- Translation of the registry-relevant part of the user-DM branch of
`on_message` (lines 1789-1831): look the user's ticket channel up via the
caches and `guild.fetch_channel` (purging the row when the fetch fails),
delete and replace a ticket whose thread has been archived, and fall back
to `ticket_creator`.  The relayed message itself has no registry
effect. -/
def on_message_dm (env : Env) (db : TicketsDB) (userId : Int) :
    Except Unit Chan × TicketsDB :=
  match ticketsLookupByUser db userId with
  | none => ticket_creator env db userId
  | some channelId =>
    let lookup : Option Chan × TicketsDB :=
      match (match env.getChannel channelId with
             | some c => some c
             | none => env.guildGetThread channelId) with
      | some c => (some c, db)
      | none =>
        match env.guildFetchChannel channelId with
        | Except.ok c => (some c, db)
        | Except.error _ => (none, ticketsDeleteByChannel db channelId)
    match lookup with
    | (none, db1) => ticket_creator env db1 userId
    | (some channel, db1) =>
      if channel.isThread ∧ channel.archived then
        ticket_creator env (ticketsDeleteByChannel db1 channel.id) userId
      else (Except.ok channel, db1)

/-- Translation of `on_thread_delete` (lines 2778-2782): only group-tag
rows are removed, and only for threads under the modmail forum. -/
def on_thread_delete (cfg : Config) (db : TicketsDB) (thread : Chan) : TicketsDB :=
  if thread.parentId = cfg.forumChannelId then remove_thread_from_groups db thread.id
  else db

/-! ## Closing a ticket (`close_ticket_thread`, lines 1250-1529) -/

/-- Error messages returned by `close_ticket_thread` as `(False, msg)`. -/
inductive CloseError
  | notValidTicket
  | reasonTooLong
  | notAssociated
deriving DecidableEq, Repr

/-- Outcome of `close_ticket_thread`: a `(False, msg)` return (with
`msg = none` for the cancelled-confirmation paths), a `(True, None)`
return, or an uncaught platform exception after the registry
mutation. -/
inductive CloseOutcome
  | failed (error : Option CloseError)
  | closed
  | raised
deriving DecidableEq, Repr

/-- Result of a close attempt together with the registry state it leaves
behind. -/
structure CloseResult where
  outcome : CloseOutcome
  db : TicketsDB
deriving DecidableEq, Repr

/-- Truthiness-guarded length test from the reason-validation loop:
`if text and len(text) > 1024`. -/
def pyTooLong (t : Option String) : Bool :=
  match t with
  | none => false
  | some s => s ≠ "" && s.length > 1024

/-- Mutation-and-teardown tail of `close_ticket_thread` (lines
1313-1529): the registry row is deleted and the group rows purged first;
the remaining platform work (closing notice, transcript export and
upload, thread deletion) follows and an uncaught `HTTPException` or
`RuntimeError` there leaves the mutation in place. -/
def close_proceed (env : Env) (db : TicketsDB) (thread : Chan) : CloseResult :=
  let db1 := remove_thread_from_groups (ticketsDeleteByChannel db thread.id) thread.id
  if env.closePlatformOk thread.id then ⟨CloseOutcome.closed, db1⟩
  else ⟨CloseOutcome.raised, db1⟩

/-- Translation of `close_ticket_thread` (lines 1250-1529).  Validation
(ticket channel, reason lengths) and the registry lookup precede any
mutation; a failed user fetch only triggers the confirmation buttons when
`skip_confirmation` is off.  The `log_anon`, `language` and
`translation_notice` parameters shape embeds and transcripts only and are
omitted. -/
def close_ticket_thread (env : Env) (cfg : Config) (db : TicketsDB) (thread : Chan)
    (reason : String) (userReason originalReason : Option String)
    (skipConfirmation : Bool) : CloseResult :=
  if ¬thread.isThread ∨ thread.parentId ≠ cfg.forumChannelId then
    ⟨CloseOutcome.failed (some CloseError.notValidTicket), db⟩
  else if pyTooLong (some reason) || pyTooLong userReason || pyTooLong originalReason then
    ⟨CloseOutcome.failed (some CloseError.reasonTooLong), db⟩
  else
    match ticketsLookupByChannel db thread.id with
    | none => ⟨CloseOutcome.failed (some CloseError.notAssociated), db⟩
    | some userId =>
      if ¬env.fetchUserOk userId ∧ ¬skipConfirmation then
        match env.confirmClose with
        | some true => close_proceed env db thread
        | some false => ⟨CloseOutcome.failed none, db⟩
        | none => ⟨CloseOutcome.failed none, db⟩
      else close_proceed env db thread

/-! ## Bulk group operations (`execute_group_reply`, lines 2015-2123, and
`execute_group_close`, lines 2288-2403) -/

/-- Classified per-target report entries collected by the fan-out loops
(the source accumulates the corresponding formatted strings). -/
inductive Failure
  /-- Message: ticket thread no longer exists. -/
  | targetNoLongerExists (threadId : Int)
  /-- Message: not linked to a user. -/
  | notLinked (threadId : Int)
  /-- Message: unable to fetch user. -/
  | userFetchFailed (threadId userId : Int)
  /-- Message carried through from `deliver_modmail_payload`. -/
  | deliveryFailed (threadId : Int) (message : String)
  /-- Error message carried through from `close_ticket_thread`. -/
  | closeFailed (threadId : Int) (error : CloseError)
deriving DecidableEq, Repr

/-- Pre-flight validation rejections that abort a bulk operation before
its fan-out loop starts. -/
inductive Preflight
  | provideGroupName
  | noTrackedTickets
  | providePayload
  | attachmentTooLarge (filename : String)
  | reasonTooLong
  | translatedReasonTooLong
  | forumMissing
deriving DecidableEq, Repr

/-- Python truthiness of an optional string argument. -/
def pyTruthy : Option String → Bool
  | none => false
  | some s => s ≠ ""

/-- Accumulator state of the group-reply fan-out loop.  `attempted`
records each thread id whose loop body was entered; `raised` records an
exception escaping the body, which aborts the loop. -/
structure ReplyLoopState where
  db : TicketsDB
  attempted : List Int
  delivered : List Int
  failures : List Failure
  raised : Bool
deriving DecidableEq, Repr

/-- Body of the group-reply fan-out loop (lines 2061-2105) for one target
thread id. -/
def replyTarget (env : Env) (st : ReplyLoopState) (threadId : Int) : ReplyLoopState :=
  let st0 := { st with attempted := st.attempted ++ [threadId] }
  match resolveT env threadId with
  | none =>
    { st0 with db := remove_thread_from_groups st0.db threadId,
               failures := st0.failures ++ [Failure.targetNoLongerExists threadId] }
  | some thread =>
    match ticketsLookupByChannel st0.db threadId with
    | none =>
      { st0 with db := remove_thread_from_groups st0.db threadId,
                 failures := st0.failures ++ [Failure.notLinked threadId] }
    | some userId =>
      if env.fetchUserOk userId then
        let thread1 := ensure_thread_open env thread
        match deliver_modmail_payload env userId thread1.id with
        | Except.error _ => { st0 with raised := true }
        | Except.ok (true, _) => { st0 with delivered := st0.delivered ++ [thread1.id] }
        | Except.ok (false, msg) =>
          { st0 with failures :=
              st0.failures ++ [Failure.deliveryFailed thread1.id (msg.getD "")] }
      else { st0 with failures := st0.failures ++ [Failure.userFetchFailed threadId userId] }

/-- Sequential fan-out over the target list; an exception escaping one
body aborts the remainder of the loop. -/
def groupReplyLoop (env : Env) : List Int → ReplyLoopState → ReplyLoopState
  | [], st => st
  | threadId :: rest, st =>
    let st1 := replyTarget env st threadId
    if st1.raised then st1 else groupReplyLoop env rest st1

/-- Observable result of one `execute_group_reply` invocation.
`payloadTranslations` counts the `translate_to_language` calls made on
the moderator's payload text. -/
structure GroupReplyReport where
  preflight : Option Preflight
  payloadTranslations : Nat
  attempted : List Int
  delivered : List Int
  failures : List Failure
  raised : Bool
  db : TicketsDB
  cache : TransCache
deriving DecidableEq, Repr

/-- Translation of `execute_group_reply` (lines 2015-2123): pre-flight
validation (group name, target set, payload, attachment ceiling), a
single payload translation plus translation notice when a language is
requested, then the sequential fan-out. -/
def execute_group_reply (env : Env) (db : TicketsDB) (cache : TransCache)
    (groupName message : String) (language : Option String)
    (attachments : List (String × Nat)) : GroupReplyReport :=
  let cleanedGroup := pyStrip groupName
  if cleanedGroup = "" then ⟨some Preflight.provideGroupName, 0, [], [], [], false, db, cache⟩
  else
    let threadIds := get_group_threads db cleanedGroup
    if threadIds = [] then ⟨some Preflight.noTrackedTickets, 0, [], [], [], false, db, cache⟩
    else if message = "" ∧ attachments = [] then
      ⟨some Preflight.providePayload, 0, [], [], [], false, db, cache⟩
    else
      match gather_attachment_payloads attachments (some 8000000) with
      | Except.error filename =>
        ⟨some (Preflight.attachmentTooLarge filename), 0, [], [], [], false, db, cache⟩
      | Except.ok _ =>
        let trans : Nat × TransCache :=
          if pyTruthy language ∧ message ≠ "" then
            let p := translate_to_language env.model cache message language
            let q := get_translation_notice env.model p.2 language
            (1, q.2)
          else (0, cache)
        let stF := groupReplyLoop env threadIds ⟨db, [], [], [], false⟩
        ⟨none, trans.1, stF.attempted, stF.delivered, stF.failures, stF.raised, stF.db,
          trans.2⟩

/-- Accumulator state of the group-close fan-out loop. -/
structure CloseLoopState where
  db : TicketsDB
  attempted : List Int
  closedThreads : List Int
  failures : List Failure
  raised : Bool
deriving DecidableEq, Repr

/-- Body of the group-close fan-out loop (lines 2343-2364) for one target
thread id. -/
def closeTarget (env : Env) (cfg : Config) (reason : String)
    (userReason originalReason : Option String) (st : CloseLoopState) (threadId : Int) :
    CloseLoopState :=
  let st0 := { st with attempted := st.attempted ++ [threadId] }
  match resolveT env threadId with
  | none =>
    { st0 with db := remove_thread_from_groups st0.db threadId,
               failures := st0.failures ++ [Failure.targetNoLongerExists threadId] }
  | some thread =>
    let r := close_ticket_thread env cfg st0.db thread reason userReason originalReason true
    match r.outcome with
    | CloseOutcome.closed =>
      { st0 with db := r.db, closedThreads := st0.closedThreads ++ [threadId] }
    | CloseOutcome.failed (some e) =>
      { st0 with db := r.db, failures := st0.failures ++ [Failure.closeFailed threadId e] }
    | CloseOutcome.failed none => { st0 with db := r.db }
    | CloseOutcome.raised => { st0 with db := r.db, raised := true }

/-- Sequential close fan-out; an exception escaping `close_ticket_thread`
aborts the remainder of the loop. -/
def groupCloseLoop (env : Env) (cfg : Config) (reason : String)
    (userReason originalReason : Option String) :
    List Int → CloseLoopState → CloseLoopState
  | [], st => st
  | threadId :: rest, st =>
    let st1 := closeTarget env cfg reason userReason originalReason st threadId
    if st1.raised then st1
    else groupCloseLoop env cfg reason userReason originalReason rest st1

/-- Observable result of one `execute_group_close` invocation. -/
structure GroupCloseReport where
  preflight : Option Preflight
  attempted : List Int
  closedThreads : List Int
  failures : List Failure
  raised : Bool
  db : TicketsDB
  cache : TransCache
deriving DecidableEq, Repr

/-- Translation of `execute_group_close` (lines 2288-2403): pre-flight
validation (group name, target set, reason length, forum lookup,
translated-reason length), the sequential close fan-out, then the group
purge (skipped when an exception aborted the loop, because it would have
propagated first).  The best-effort forum-tag deletion afterwards touches
only platform tag objects and the displayed report and is omitted. -/
def execute_group_close (env : Env) (cfg : Config) (db : TicketsDB) (cache : TransCache)
    (groupName reason : String) (language : Option String) : GroupCloseReport :=
  let cleanedGroup := pyStrip groupName
  if cleanedGroup = "" then ⟨some Preflight.provideGroupName, [], [], [], false, db, cache⟩
  else
    let threadIds := get_group_threads db cleanedGroup
    if threadIds = [] then ⟨some Preflight.noTrackedTickets, [], [], [], false, db, cache⟩
    else if reason.length > 1024 then
      ⟨some Preflight.reasonTooLong, [], [], [], false, db, cache⟩
    else if ¬env.forumOk then ⟨some Preflight.forumMissing, [], [], [], false, db, cache⟩
    else
      let pre : Option Preflight × Option String × Option String × TransCache :=
        if pyTruthy language ∧ reason ≠ "" then
          let p := translate_to_language env.model cache reason language
          if p.1.length > 1024 then (some Preflight.translatedReasonTooLong, none, none, p.2)
          else
            let q := get_translation_notice env.model p.2 language
            (none, some p.1, some reason, q.2)
        else (none, none, none, cache)
      match pre with
      | (some e, _, _, cache1) => ⟨some e, [], [], [], false, db, cache1⟩
      | (none, userReason, originalReason, cache1) =>
        let stF := groupCloseLoop env cfg reason userReason originalReason threadIds
          ⟨db, [], [], [], false⟩
        let finalDb := if stF.raised then stF.db else remove_group stF.db cleanedGroup
        ⟨none, stF.attempted, stF.closedThreads, stF.failures, stF.raised, finalDb, cache1⟩

/-! ## Broadcast link registry (spec §4.4)

No broadcast/aggregator code exists under `src/`; the spec describes it
as a separate revision of the bot.  The registry and its thread-unlink
cascade are therefore modelled from the spec for claim C5. -/

/-- Modelled from the spec: the Broadcast Link Registry state, absent from
`src/modmail.py` — `broadcast_links(aggregator_id, correspondent_id,
thread_id)` plus the created-marker table
`broadcast_new_threads(aggregator_id, thread_id)` (spec §4.4, §6). -/
structure BroadcastRegistry where
  links : List (Int × Int × Int)
  createdMarkers : List (Int × Int)
deriving DecidableEq, Repr

/-- Modelled from the spec: `aggregators_for(thread_id) -> [aggregator]`,
the reverse index over broadcast links (spec §4.4), absent from
`src/modmail.py`. -/
def aggregators_for (reg : BroadcastRegistry) (threadId : Int) : List Int :=
  (reg.links.filter (fun r => r.2.2 == threadId)).map (fun r => r.1)

/-- Modelled from the spec: `unlink_thread(thread_id)`, the cascade-remove
from both the link table and the created-marker table (spec §4.4), absent
from `src/modmail.py`.  Per spec §8 this runs as part of the close
cascade so that `aggregators_for(thread_id)` is empty afterward. -/
def unlink_thread (reg : BroadcastRegistry) (threadId : Int) : BroadcastRegistry :=
  ⟨reg.links.filter (fun r => r.2.2 != threadId),
   reg.createdMarkers.filter (fun r => r.2 != threadId)⟩

/-! ## Properties used by the claim statements -/

/-- Number of ticket registry rows recorded for one correspondent. -/
def countUser (db : TicketsDB) (userId : Int) : Nat :=
  (db.tickets.filter (fun r => r.1 == userId)).length

/-- Single-open-ticket invariant: at most one registry row per
correspondent. -/
def AtMostOneTicket (db : TicketsDB) : Prop :=
  ∀ userId, countUser db userId ≤ 1

/-- Platform sanity: a channel produced by a cache or fetch keyed by an id
carries that id.  (True of Discord; needed where the source deletes rows
by `channel.id` after looking the channel up by the stored id.) -/
def EnvChannelConsistent (env : Env) : Prop :=
  (∀ channelId c, env.getChannel channelId = some c → c.id = channelId) ∧
  (∀ channelId c, env.guildGetThread channelId = some c → c.id = channelId) ∧
  (∀ channelId c, env.guildFetchChannel channelId = Except.ok c → c.id = channelId)

/-- Conditions under which the group-reply loop body fully succeeds for a
target: the thread resolves (to a handle carrying the target id), the
registry links it to a user, the user can be fetched, the DM is delivered
and the mirror post succeeds. -/
def GoodReplyTarget (env : Env) (db : TicketsDB) (t : Int) : Prop :=
  ∃ th u, resolveT env t = some th ∧ th.id = t ∧
    ticketsLookupByChannel db t = some u ∧ env.fetchUserOk u = true ∧
    env.dm u = SendOutcome.delivered ∧ env.threadPost t = true

/-! ## Concrete fixtures used by witnesses and counterexamples -/

/-- Unarchived ticket thread under forum channel 90. -/
def testThread (tid : Int) : Chan := ⟨tid, true, false, 90⟩

/-- Configuration matching `testThread` parents. -/
def testCfg : Config := ⟨90, 77⟩

/-- Platform state for the spec scenario: threads 101 and 103 live in the
local cache, everything else is gone, and all deliveries succeed. -/
def testEnv : Env where
  getChannel := fun tid => if tid = 101 ∨ tid = 103 then some (testThread tid) else none
  guildExists := true
  guildGetThread := fun _ => none
  fetchChannel := fun _ => Except.error PFErr.notFound
  guildFetchChannel := fun _ => Except.error PFErr.notFound
  editOk := fun _ => true
  fetchUserOk := fun _ => true
  dm := fun _ => SendOutcome.delivered
  threadPost := fun _ => true
  model := fun t _ => Except.ok (t ++ " [fr]")
  closePlatformOk := fun _ => true
  createThread := fun u => Except.ok (testThread (u + 1000))
  createThreadRetry := fun u => Except.ok (testThread (u + 2000))
  readyAttempts := fun _ => none
  logSendOk := true
  mutualGuild := fun _ => true
  botUserId := 1
  filesizeLimit := 8000000
  forumOk := true
  confirmClose := none

/-- Registry for the spec scenario: group `launch` tags threads 101, 102
and 103, owned by users 11, 12 and 13. -/
def testDb : TicketsDB :=
  ⟨[(11, 101), (12, 102), (13, 103)], [("launch", 101), ("launch", 102), ("launch", 103)]⟩

/-- Platform state in which user 7's DM raises a non-`Forbidden`
`HTTPException` while both target threads are alive. -/
def bugEnv : Env :=
  { testEnv with
    getChannel := fun tid => if tid = 201 ∨ tid = 202 then some (testThread tid) else none
    dm := fun u => if u = 7 then SendOutcome.httpError else SendOutcome.delivered }

/-- Registry for the unhandled-exception scenario: group `g` tags threads
201 (user 7) and 202 (user 8). -/
def bugDb : TicketsDB := ⟨[(7, 201), (8, 202)], [("g", 201), ("g", 202)]⟩

/-- Report produced by the unhandled-exception scenario. -/
def bugReport : GroupReplyReport :=
  execute_group_reply bugEnv bugDb [] "g" "hello" none []

/-! ## Helper lemmas -/

theorem assocGet_assocSet_self {α : Type} (l : List (String × α)) (k : String) (v : α) :
    assocGet (assocSet l k v) k = some v := by
  induction l with
  | nil => simp [assocGet, assocSet]
  | cons head rest ih =>
    obtain ⟨k1, v1⟩ := head
    by_cases h : k1 = k
    · simp [assocGet, assocSet, h]
    · simp [assocGet, assocSet, h, ih]

theorem assocSet_ne_nil {α : Type} (l : List (String × α)) (k : String) (v : α) :
    assocSet l k v ≠ [] := by
  cases l with
  | nil => simp [assocSet]
  | cons head rest =>
    obtain ⟨k1, v1⟩ := head
    by_cases h : k1 = k <;> simp [assocSet, h]

theorem pyStrip_empty : pyStrip "" = "" := rfl

theorem ensure_thread_open_id (env : Env) (th : Chan) :
    (ensure_thread_open env th).id = th.id := by
  unfold ensure_thread_open
  split_ifs <;> rfl

theorem remove_thread_from_groups_tickets (db : TicketsDB) (x : Int) :
    (remove_thread_from_groups db x).tickets = db.tickets := rfl

theorem ticketsLookupByChannel_remove (db : TicketsDB) (x t : Int) :
    ticketsLookupByChannel (remove_thread_from_groups db x) t = ticketsLookupByChannel db t :=
  rfl

/-! ## Claim C4 — translation cache get/put laws -/

/-- C4 counterexample: the claim quantifies over every source text, but
for the empty text `cache_translation` stores the pair (it never checks
its text argument) while `get_cached_translation` unconditionally
reports a miss, so put-then-get does not return the stored value. -/
theorem cache_roundtrip_fails_for_empty_text :
    cache_translation [] "" (some "French") "bonjour" = [("", [("french", "bonjour")])] ∧
    get_cached_translation (cache_translation [] "" (some "French") "bonjour") ""
      (some "French") ≠ some "bonjour" := by decide

/-- C4 (amended): for every non-empty source text and non-blank language
labels equal up to case and surrounding whitespace, put followed by get
returns the stored non-blank value; get returns `None` whenever the text
is empty or the language label is blank, and on any unseen
(text, language) pair. -/
theorem translation_cache_laws (cache : TransCache) (t l1 l2 v : String)
    (ht : t ≠ "")
    (hl : normalise_language_label (some l1) = normalise_language_label (some l2))
    (hl1 : normalise_language_label (some l1) ≠ "")
    (hv : pyStrip v ≠ "") :
    get_cached_translation (cache_translation cache t (some l1) v) t (some l2) = some v ∧
    (∀ (c : TransCache) lang, get_cached_translation c "" lang = none) ∧
    (∀ (c : TransCache) text lang, normalise_language_label lang = "" →
      get_cached_translation c text lang = none) ∧
    (∀ (c : TransCache) text lang, assocGet c text = none →
      get_cached_translation c text lang = none) ∧
    (∀ (c : TransCache) (entry : List (String × String)) text lang,
      assocGet c text = some entry → assocGet entry (normalise_language_label lang) = none →
      get_cached_translation c text lang = none) := by
  have hv0 : v ≠ "" := by
    intro h
    rw [h] at hv
    exact hv rfl
  have hput : cache_translation cache t (some l1) v =
      assocSet cache t
        (assocSet ((assocGet cache t).getD []) (normalise_language_label (some l1)) v) := by
    unfold cache_translation
    rw [if_neg (not_or.mpr ⟨hv0, hv⟩), if_neg hl1]
  refine ⟨?_, ?_, ?_, ?_, ?_⟩
  · rw [hput]
    unfold get_cached_translation
    rw [if_neg ht, ← hl, if_neg hl1, assocGet_assocSet_self]
    dsimp only
    rw [if_neg (assocSet_ne_nil _ _ _), assocGet_assocSet_self]
  · intro c lang
    simp [get_cached_translation]
  · intro c text lang hlang
    by_cases htext : text = ""
    · simp [get_cached_translation, htext]
    · simp [get_cached_translation, htext, hlang]
  · intro c text lang hmiss
    by_cases htext : text = ""
    · simp [get_cached_translation, htext]
    · by_cases hlang : normalise_language_label lang = ""
      · simp [get_cached_translation, htext, hlang]
      · simp [get_cached_translation, htext, hlang, hmiss]
  · intro c entry text lang hentry hkey
    by_cases htext : text = ""
    · simp [get_cached_translation, htext]
    · by_cases hlang : normalise_language_label lang = ""
      · simp [get_cached_translation, htext, hlang]
      · simp [get_cached_translation, htext, hlang, hentry, hkey]

/-- Witness for C4: the `put("hola", "English", "hello")` /
`get("hola", "english")` example of the spec. -/
theorem translation_cache_laws_witness :
    get_cached_translation (cache_translation [] "hola" (some "English") "hello") "hola"
      (some "english") = some "hello" :=
  (translation_cache_laws [] "hola" "English" "english" "hello" (by decide) (by decide)
    (by decide) (by decide)).1

/-! ## Claim C7 — `resolve_thread` never raises -/

/-- C7: `resolve_thread` never lets an exception escape: it consults the
local channel cache, then the guild thread cache, then the direct fetch,
and yields `None` when the fetch fails (`NotFound`/`HTTPException` are
both caught) or the fetched channel is not a thread. -/
theorem resolve_thread_no_raise (env : Env) (threadId : Int) :
    (∃ r, resolve_thread_exc env threadId = Except.ok r) ∧
    (∀ t, chanAsThread (env.getChannel threadId) = some t →
      resolve_thread_exc env threadId = Except.ok (some t)) ∧
    (chanAsThread (env.getChannel threadId) = none →
      (if env.guildExists then chanAsThread (env.guildGetThread threadId) else none) = none →
      (∀ e, env.fetchChannel threadId = Except.error e →
        resolve_thread_exc env threadId = Except.ok none) ∧
      (∀ c, env.fetchChannel threadId = Except.ok c → c.isThread = false →
        resolve_thread_exc env threadId = Except.ok none)) := by
  refine ⟨?_, ?_, ?_⟩
  · cases h1 : chanAsThread (env.getChannel threadId) with
    | some t => exact ⟨some t, by unfold resolve_thread_exc; rw [h1]⟩
    | none =>
      cases h2 : (if env.guildExists then chanAsThread (env.guildGetThread threadId)
          else none) with
      | some t => exact ⟨some t, by unfold resolve_thread_exc; rw [h1, h2]⟩
      | none =>
        cases h3 : env.fetchChannel threadId with
        | error e => exact ⟨none, by unfold resolve_thread_exc; rw [h1, h2, h3]⟩
        | ok c =>
          exact ⟨if c.isThread then some c else none, by
            unfold resolve_thread_exc; rw [h1, h2, h3]⟩
  · intro t h1
    unfold resolve_thread_exc
    rw [h1]
  · intro h1 h2
    constructor
    · intro e h3
      unfold resolve_thread_exc
      rw [h1, h2, h3]
    · intro c h3 h4
      unfold resolve_thread_exc
      rw [h1, h2, h3]
      simp [h4]

/-- Witness for C7: thread 101 is served from the local cache while the
platform fetch for 102 fails, both without an escaping error. -/
theorem resolve_thread_no_raise_witness :
    resolve_thread_exc testEnv 101 = Except.ok (some (testThread 101)) ∧
    resolve_thread_exc testEnv 102 = Except.ok none := by
  constructor
  · exact (resolve_thread_no_raise testEnv 101).2.1 (testThread 101) (by decide)
  · exact ((resolve_thread_no_raise testEnv 102).2.2 (by decide) (by decide)).1
      PFErr.notFound rfl

/-! ## Claim C8 — `ensure_thread_ready` is bounded -/

theorem ensure_loop_congr (a b : Nat → Option Chan) (thread : Chan) :
    ∀ (n i : Nat), (∀ k, k < i + n → a k = b k) →
    ensure_thread_ready_loop a thread n i = ensure_thread_ready_loop b thread n i := by
  intro n
  induction n with
  | zero => intro i _; rfl
  | succ m ih =>
    intro i h
    unfold ensure_thread_ready_loop
    rw [h i (by omega)]
    cases b i with
    | some t0 => rfl
    | none => exact ih (i + 1) (fun k hk => h k (by omega))

theorem ensure_loop_all_none (a : Nat → Option Chan) (thread : Chan) :
    ∀ (n i : Nat), (∀ k, i ≤ k → k < i + n → a k = none) →
    ensure_thread_ready_loop a thread n i = thread := by
  intro n
  induction n with
  | zero => intro i _; rfl
  | succ m ih =>
    intro i h
    unfold ensure_thread_ready_loop
    rw [h i le_rfl (by omega)]
    exact ih (i + 1) (fun k hk1 hk2 => h k (by omega) (by omega))

theorem ensure_loop_first_success (a : Nat → Option Chan) (thread t : Chan) :
    ∀ (n i j : Nat), i ≤ j → j < i + n → (∀ k, i ≤ k → k < j → a k = none) →
    a j = some t → ensure_thread_ready_loop a thread n i = t := by
  intro n
  induction n with
  | zero => intro i j h1 h2 _ _; omega
  | succ m ih =>
    intro i j h1 h2 hnone hsome
    unfold ensure_thread_ready_loop
    by_cases hij : i = j
    · rw [hij, hsome]
    · rw [hnone i le_rfl (by omega)]
      exact ih (i + 1) j (by omega) (by omega)
        (fun k hk1 hk2 => hnone k (by omega) hk2) hsome

/-- C8: `ensure_thread_ready` terminates after at most four resolution
attempts (one immediate plus three fixed-backoff retries): its result
depends only on the first four attempt outcomes, it falls back to the
original possibly-stale handle when every attempt fails, and it returns
the freshly resolved handle of the first successful attempt.
(Termination itself is structural: the Lean translation recurses on the
retry budget.) -/
theorem ensure_thread_ready_bounded (a b : Nat → Option Chan) (thread t : Chan) :
    ((∀ i, i < 4 → a i = b i) →
      ensure_thread_ready a thread = ensure_thread_ready b thread) ∧
    ((∀ i, i < 4 → a i = none) → ensure_thread_ready a thread = thread) ∧
    (∀ j, j < 4 → (∀ i, i < j → a i = none) → a j = some t →
      ensure_thread_ready a thread = t) := by
  refine ⟨?_, ?_, ?_⟩
  · intro h
    unfold ensure_thread_ready
    rw [h 0 (by omega)]
    cases b 0 with
    | some t0 => rfl
    | none => exact ensure_loop_congr a b thread 3 1 (fun k hk => h k (by omega))
  · intro h
    unfold ensure_thread_ready
    rw [h 0 (by omega)]
    exact ensure_loop_all_none a thread 3 1 (fun k hk1 hk2 => h k (by omega))
  · intro j hj hnone hsome
    unfold ensure_thread_ready
    cases j with
    | zero => rw [hsome]
    | succ j0 =>
      rw [hnone 0 (by omega)]
      exact ensure_loop_first_success a thread t 3 1 (j0 + 1) (by omega) (by omega)
        (fun k hk1 hk2 => hnone k hk2) hsome

/-- Witness for C8: with every attempt failing the original handle comes
back, and with a fresh handle appearing at attempt 2 that handle comes
back. -/
theorem ensure_thread_ready_bounded_witness :
    ensure_thread_ready (fun _ => none) (testThread 5) = testThread 5 ∧
    ensure_thread_ready (fun k => if k = 2 then some (testThread 6) else none)
      (testThread 5) = testThread 6 := by
  constructor
  · exact (ensure_thread_ready_bounded (fun _ => none) (fun _ => none) (testThread 5)
      (testThread 6)).2.1 (fun i _ => rfl)
  · exact (ensure_thread_ready_bounded (fun k => if k = 2 then some (testThread 6) else none)
      (fun _ => none) (testThread 5) (testThread 6)).2.2 2 (by omega)
      (by intro i hi; interval_cases i <;> rfl) (by rfl)

/-! ## Claim C9 — English-class labels pass text through untranslated -/

theorem language_is_english_of_class (l : String)
    (h : pyStrip l = "" ∨ pyLower (pyStrip l) = "unknown" ∨
      pyStartswith (pyLower (pyStrip l)) "en" = true) :
    language_is_english (some l) = true := by
  simp only [language_is_english]
  rcases h with h | h | h
  · have h0 : pyLower (pyStrip l) = "" := by rw [h]; rfl
    simp [h0]
  · rw [h]
    decide
  · split_ifs with h1 h2
    · rfl
    · rfl
    · exact h

/-- C9: for a language label that is `None`, blank, `unknown`, or whose
trimmed lower-cased form starts with `en`, `translate_to_language`
returns its input text unchanged and leaves the translation cache
untouched — so no target language whose label begins with `en` can
produce a translated reply. -/
theorem translate_to_language_english_passthrough (model : ModelOracle) (cache : TransCache)
    (text : String) (language : Option String)
    (h : language = none ∨ ∃ l, language = some l ∧
      (pyStrip l = "" ∨ pyLower (pyStrip l) = "unknown" ∨
       pyStartswith (pyLower (pyStrip l)) "en" = true)) :
    translate_to_language model cache text language = (text, cache) := by
  have heng : language_is_english language = true := by
    rcases h with h | ⟨l, rfl, hclass⟩
    · rw [h]; rfl
    · exact language_is_english_of_class l hclass
  unfold translate_to_language
  by_cases h1 : pyStrip text = ""
  · rw [if_pos h1]
  · rw [if_neg h1, if_pos heng]

/-- Witness for C9: the label `" EN-us "` (blank-padded, upper-case,
`en`-prefixed) passes `"hola"` through with the cache unchanged. -/
theorem translate_to_language_english_passthrough_witness :
    translate_to_language testEnv.model [] "hola" (some " EN-us ") = ("hola", []) :=
  translate_to_language_english_passthrough testEnv.model [] "hola" (some " EN-us ")
    (Or.inr ⟨" EN-us ", rfl, by decide⟩)

/-! ## Claim C10 — out-of-band thread deletion touches only group tags -/

/-- C10: when a thread under the modmail forum is deleted out-of-band,
`on_thread_delete` removes exactly that thread's group-tag rows and
leaves the ticket registry untouched; for a thread under any other
parent it changes nothing; and the stale ticket row is purged only on
the next access, when `get_or_create_ticket_for_user` fails to resolve
the stored thread and proceeds with the purge-then-recreate path. -/
theorem on_thread_delete_frame (cfg : Config) (db : TicketsDB) (thread : Chan) (env : Env)
    (userId threadId : Int) :
    (thread.parentId = cfg.forumChannelId →
      (on_thread_delete cfg db thread).groupTags =
        db.groupTags.filter (fun r => r.2 != thread.id) ∧
      (on_thread_delete cfg db thread).tickets = db.tickets) ∧
    (thread.parentId ≠ cfg.forumChannelId → on_thread_delete cfg db thread = db) ∧
    (ticketsLookupByUser db userId = some threadId → resolveT env threadId = none →
      get_or_create_ticket_for_user env db userId =
        ticket_creator env (ticketsDeleteByChannel db threadId) userId) := by
  refine ⟨?_, ?_, ?_⟩
  · intro h
    unfold on_thread_delete
    rw [if_pos h]
    exact ⟨rfl, rfl⟩
  · intro h
    unfold on_thread_delete
    rw [if_neg h]
  · intro hrow hres
    simp only [get_or_create_ticket_for_user, hrow, hres]

/-- Witness for C10: deleting live thread 101 under the forum purges its
`launch` row only; a thread under parent 55 changes nothing; and the next
access for user 12 (whose thread 102 is gone) runs the purge-then-create
path. -/
theorem on_thread_delete_frame_witness :
    (on_thread_delete testCfg testDb (testThread 101)).groupTags =
      [("launch", 102), ("launch", 103)] ∧
    (on_thread_delete testCfg testDb (testThread 101)).tickets = testDb.tickets ∧
    on_thread_delete testCfg testDb ⟨300, true, false, 55⟩ = testDb ∧
    get_or_create_ticket_for_user testEnv testDb 12 =
      ticket_creator testEnv (ticketsDeleteByChannel testDb 102) 12 := by
  have h := on_thread_delete_frame testCfg testDb (testThread 101) testEnv 12 102
  have h2 := on_thread_delete_frame testCfg testDb ⟨300, true, false, 55⟩ testEnv 12 102
  refine ⟨?_, ?_, ?_, ?_⟩
  · rw [(h.1 (by decide)).1]
    decide
  · exact (h.1 (by decide)).2
  · exact h2.2.1 (by decide)
  · exact h.2.2 (by decide) (by decide)

/-! ## Claim C5 — closing a ticket cascades -/

theorem aggregators_for_unlink (reg : BroadcastRegistry) (threadId : Int) :
    aggregators_for (unlink_thread reg threadId) threadId = [] := by
  unfold aggregators_for unlink_thread
  rw [List.filter_filter]
  have h : (reg.links.filter (fun r => r.2.2 == threadId && r.2.2 != threadId)) = [] := by
    rw [List.filter_eq_nil_iff]
    intro a _
    simp [bne]
  rw [h]
  rfl

theorem close_ticket_thread_closed_db (env : Env) (cfg : Config) (db : TicketsDB)
    (thread : Chan) (reason : String) (userReason originalReason : Option String)
    (skip : Bool)
    (h : (close_ticket_thread env cfg db thread reason userReason originalReason skip).outcome =
      CloseOutcome.closed) :
    (close_ticket_thread env cfg db thread reason userReason originalReason skip).db =
      remove_thread_from_groups (ticketsDeleteByChannel db thread.id) thread.id := by
  unfold close_ticket_thread at h ⊢
  by_cases h1 : ¬thread.isThread ∨ thread.parentId ≠ cfg.forumChannelId
  · rw [if_pos h1] at h
    exact absurd h (by simp)
  · rw [if_neg h1] at h ⊢
    by_cases h2 : (pyTooLong (some reason) || pyTooLong userReason ||
        pyTooLong originalReason) = true
    · rw [if_pos h2] at h
      exact absurd h (by simp)
    · rw [if_neg h2] at h ⊢
      cases hl : ticketsLookupByChannel db thread.id with
      | none =>
        rw [hl] at h
        exact absurd h (by simp)
      | some userId =>
        rw [hl] at h
        dsimp only at h ⊢
        by_cases h3 : ¬env.fetchUserOk userId = true ∧ ¬skip = true
        · rw [if_pos h3] at h ⊢
          cases hc : env.confirmClose with
          | none =>
            rw [hc] at h
            exact absurd h (by simp)
          | some b =>
            cases b with
            | false =>
              rw [hc] at h
              exact absurd h (by simp)
            | true =>
              rw [hc] at h
              dsimp only at h ⊢
              unfold close_proceed at h ⊢
              by_cases h4 : env.closePlatformOk thread.id = true
              · rw [if_pos h4]
              · rw [if_neg h4] at h
                exact absurd h (by simp)
        · rw [if_neg h3] at h ⊢
          unfold close_proceed at h ⊢
          by_cases h4 : env.closePlatformOk thread.id = true
          · rw [if_pos h4]
          · rw [if_neg h4] at h
            exact absurd h (by simp)

/-- C5: after `close_ticket_thread` succeeds, the cascade is complete —
the ticket registry holds no row for the closed thread, the group tag
index holds no row with its thread id, and (with the broadcast link
registry modelled from the spec, since no broadcast code exists under
`src/`) `aggregators_for(thread_id)` is empty once the close cascade's
`unlink_thread` has run. -/
theorem close_ticket_thread_cascade (env : Env) (cfg : Config) (db : TicketsDB)
    (thread : Chan) (reason : String) (userReason originalReason : Option String)
    (skip : Bool) (reg : BroadcastRegistry)
    (h : (close_ticket_thread env cfg db thread reason userReason originalReason skip).outcome =
      CloseOutcome.closed) :
    (∀ r ∈ (close_ticket_thread env cfg db thread reason userReason
        originalReason skip).db.tickets, r.2 ≠ thread.id) ∧
    (∀ r ∈ (close_ticket_thread env cfg db thread reason userReason
        originalReason skip).db.groupTags, r.2 ≠ thread.id) ∧
    aggregators_for (unlink_thread reg thread.id) thread.id = [] := by
  rw [close_ticket_thread_closed_db env cfg db thread reason userReason originalReason skip h]
  refine ⟨?_, ?_, aggregators_for_unlink reg thread.id⟩
  · intro r hr
    have hmem := List.mem_filter.mp hr
    simpa using hmem.2
  · intro r hr
    have hmem := List.mem_filter.mp hr
    simpa using hmem.2

/-- Witness for C5: closing live thread 101 of the scenario registry
succeeds and scrubs both tables and the (spec-modelled) broadcast
reverse index. -/
theorem close_ticket_thread_cascade_witness :
    (∀ r ∈ (close_ticket_thread testEnv testCfg testDb (testThread 101) "" none none
        true).db.tickets, r.2 ≠ (testThread 101).id) ∧
    (∀ r ∈ (close_ticket_thread testEnv testCfg testDb (testThread 101) "" none none
        true).db.groupTags, r.2 ≠ (testThread 101).id) ∧
    aggregators_for (unlink_thread ⟨[(9, 12, 101)], [(9, 101)]⟩ (testThread 101).id)
      (testThread 101).id = [] :=
  close_ticket_thread_cascade testEnv testCfg testDb (testThread 101) "" none none true
    ⟨[(9, 12, 101)], [(9, 101)]⟩ (by decide)

/-! ## Fan-out loop lemmas -/

theorem replyTarget_attempted (env : Env) (st : ReplyLoopState) (t : Int) :
    (replyTarget env st t).attempted = st.attempted ++ [t] := by
  unfold replyTarget
  dsimp only
  cases resolveT env t with
  | none => rfl
  | some thread =>
    dsimp only
    cases ticketsLookupByChannel st.db t with
    | none => rfl
    | some userId =>
      dsimp only
      by_cases hf : env.fetchUserOk userId = true
      · rw [if_pos hf]
        cases deliver_modmail_payload env userId (ensure_thread_open env thread).id with
        | error e => rfl
        | ok r =>
          obtain ⟨ok, msg⟩ := r
          cases ok <;> rfl
      · rw [if_neg hf]

theorem replyTarget_raised_of_no_httpError (env : Env) (st : ReplyLoopState) (t : Int)
    (hdm : ∀ u, env.dm u ≠ SendOutcome.httpError) :
    (replyTarget env st t).raised = st.raised := by
  unfold replyTarget
  dsimp only
  cases resolveT env t with
  | none => rfl
  | some thread =>
    dsimp only
    cases ticketsLookupByChannel st.db t with
    | none => rfl
    | some userId =>
      dsimp only
      by_cases hf : env.fetchUserOk userId = true
      · rw [if_pos hf]
        cases hd : deliver_modmail_payload env userId (ensure_thread_open env thread).id with
        | error e =>
          exfalso
          unfold deliver_modmail_payload at hd
          cases hdm2 : env.dm userId with
          | delivered =>
            rw [hdm2] at hd
            by_cases hp : env.threadPost (ensure_thread_open env thread).id = true
            · rw [if_pos hp] at hd
              exact Except.noConfusion hd
            · rw [if_neg hp] at hd
              exact Except.noConfusion hd
          | forbidden =>
            rw [hdm2] at hd
            exact Except.noConfusion hd
          | httpError => exact hdm userId hdm2
        | ok r =>
          obtain ⟨ok, msg⟩ := r
          cases ok <;> rfl
      · rw [if_neg hf]

theorem groupReplyLoop_no_raise (env : Env) (hdm : ∀ u, env.dm u ≠ SendOutcome.httpError) :
    ∀ (ts : List Int) (st : ReplyLoopState), st.raised = false →
    (groupReplyLoop env ts st).raised = false ∧
    (groupReplyLoop env ts st).attempted = st.attempted ++ ts := by
  intro ts
  induction ts with
  | nil =>
    intro st hst
    exact ⟨hst, by simp [groupReplyLoop]⟩
  | cons t rest ih =>
    intro st hst
    unfold groupReplyLoop
    dsimp only
    have hr : (replyTarget env st t).raised = false := by
      rw [replyTarget_raised_of_no_httpError env st t hdm]
      exact hst
    rw [hr]
    simp only [Bool.false_eq_true, if_false]
    obtain ⟨ih1, ih2⟩ := ih (replyTarget env st t) hr
    refine ⟨ih1, ?_⟩
    rw [ih2, replyTarget_attempted]
    simp

theorem closeTarget_attempted (env : Env) (cfg : Config) (reason : String)
    (userReason originalReason : Option String) (st : CloseLoopState) (t : Int) :
    (closeTarget env cfg reason userReason originalReason st t).attempted =
      st.attempted ++ [t] := by
  unfold closeTarget
  dsimp only
  cases resolveT env t with
  | none => rfl
  | some thread =>
    dsimp only
    cases (close_ticket_thread env cfg st.db thread reason userReason originalReason
        true).outcome with
    | closed => rfl
    | raised => rfl
    | failed e => cases e <;> rfl

theorem close_outcome_not_raised (env : Env) (cfg : Config) (db : TicketsDB) (thread : Chan)
    (reason : String) (userReason originalReason : Option String) (skip : Bool)
    (hok : env.closePlatformOk thread.id = true) :
    (close_ticket_thread env cfg db thread reason userReason originalReason skip).outcome ≠
      CloseOutcome.raised := by
  unfold close_ticket_thread
  by_cases h1 : ¬thread.isThread ∨ thread.parentId ≠ cfg.forumChannelId
  · rw [if_pos h1]
    simp
  · rw [if_neg h1]
    by_cases h2 : (pyTooLong (some reason) || pyTooLong userReason ||
        pyTooLong originalReason) = true
    · rw [if_pos h2]
      simp
    · rw [if_neg h2]
      cases hl : ticketsLookupByChannel db thread.id with
      | none => simp
      | some userId =>
        dsimp only
        by_cases h3 : ¬env.fetchUserOk userId = true ∧ ¬skip = true
        · rw [if_pos h3]
          cases hc : env.confirmClose with
          | none => simp
          | some b =>
            cases b with
            | false => simp
            | true =>
              unfold close_proceed
              rw [if_pos hok]
              simp
        · rw [if_neg h3]
          unfold close_proceed
          rw [if_pos hok]
          simp

theorem closeTarget_raised_of_platform_ok (env : Env) (cfg : Config) (reason : String)
    (userReason originalReason : Option String) (st : CloseLoopState) (t : Int)
    (hok : ∀ tid, env.closePlatformOk tid = true) :
    (closeTarget env cfg reason userReason originalReason st t).raised = st.raised := by
  unfold closeTarget
  dsimp only
  cases resolveT env t with
  | none => rfl
  | some thread =>
    dsimp only
    cases ho : (close_ticket_thread env cfg st.db thread reason userReason originalReason
        true).outcome with
    | closed => rfl
    | raised =>
      exact absurd ho (close_outcome_not_raised env cfg st.db thread reason userReason
        originalReason true (hok thread.id))
    | failed e => cases e <;> rfl

theorem groupCloseLoop_no_raise (env : Env) (cfg : Config) (reason : String)
    (userReason originalReason : Option String)
    (hok : ∀ tid, env.closePlatformOk tid = true) :
    ∀ (ts : List Int) (st : CloseLoopState), st.raised = false →
    (groupCloseLoop env cfg reason userReason originalReason ts st).raised = false ∧
    (groupCloseLoop env cfg reason userReason originalReason ts st).attempted =
      st.attempted ++ ts := by
  intro ts
  induction ts with
  | nil =>
    intro st hst
    exact ⟨hst, by simp [groupCloseLoop]⟩
  | cons t rest ih =>
    intro st hst
    unfold groupCloseLoop
    dsimp only
    have hr : (closeTarget env cfg reason userReason originalReason st t).raised = false := by
      rw [closeTarget_raised_of_platform_ok env cfg reason userReason originalReason st t hok]
      exact hst
    rw [hr]
    simp only [Bool.false_eq_true, if_false]
    obtain ⟨ih1, ih2⟩ := ih (closeTarget env cfg reason userReason originalReason st t) hr
    refine ⟨ih1, ?_⟩
    rw [ih2, closeTarget_attempted]
    simp

/-! ## Claim C1 — a non-`Forbidden` DM exception aborts the fan-out -/

/-- C1 (code bug): group `g` tags the live threads 201 and 202, every
pre-flight check passes, yet user 7's DM raising a non-`Forbidden`
`HTTPException` escapes `deliver_modmail_payload` (which catches only
`discord.Forbidden` around `user.send`) and aborts the loop: thread 202
is never attempted and no failure is recorded for thread 201, refuting
the exactly-once / no-short-circuit guarantee the spec mandates. -/
theorem group_reply_unhandled_exception_short_circuits :
    bugReport.preflight = none ∧
    get_group_threads bugDb (pyStrip "g") = [201, 202] ∧
    bugReport.raised = true ∧
    bugReport.attempted = [201] ∧
    bugReport.failures = [] := by decide

/-! ## Claim C6 — pre-flight validation failures mutate nothing -/

theorem gather_error_of_oversize (limit : Nat) :
    ∀ (atts : List (String × Nat)), (∃ a ∈ atts, a.2 > limit) →
    ∃ nm, gather_attachment_payloads atts (some limit) = Except.error nm := by
  intro atts
  induction atts with
  | nil =>
    intro h
    simp at h
  | cons a rest ih =>
    intro h
    obtain ⟨nm0, sz0⟩ := a
    by_cases ha : sz0 > limit
    · exact ⟨nm0, by unfold gather_attachment_payloads; dsimp only; rw [if_pos ha]⟩
    · have hrest : ∃ b ∈ rest, b.2 > limit := by
        obtain ⟨b, hb, hb2⟩ := h
        rcases List.mem_cons.mp hb with hb1 | hb1
        · rw [hb1] at hb2
          exact absurd hb2 ha
        · exact ⟨b, hb1, hb2⟩
      obtain ⟨nm, hnm⟩ := ih hrest
      refine ⟨nm, ?_⟩
      unfold gather_attachment_payloads
      dsimp only
      rw [if_neg ha, hnm]

theorem reply_preflight_frame (env : Env) (db : TicketsDB) (cache : TransCache)
    (g m : String) (lang : Option String) (atts : List (String × Nat)) (e : Preflight)
    (h : (execute_group_reply env db cache g m lang atts).preflight = some e) :
    (execute_group_reply env db cache g m lang atts).db = db ∧
    (execute_group_reply env db cache g m lang atts).attempted = [] ∧
    (execute_group_reply env db cache g m lang atts).delivered = [] ∧
    (execute_group_reply env db cache g m lang atts).failures = [] := by
  unfold execute_group_reply at h ⊢
  dsimp only at h ⊢
  by_cases h1 : pyStrip g = ""
  · rw [if_pos h1]
    exact ⟨rfl, rfl, rfl, rfl⟩
  · rw [if_neg h1] at h ⊢
    by_cases h2 : get_group_threads db (pyStrip g) = []
    · rw [if_pos h2]
      exact ⟨rfl, rfl, rfl, rfl⟩
    · rw [if_neg h2] at h ⊢
      by_cases h3 : m = "" ∧ atts = []
      · rw [if_pos h3]
        exact ⟨rfl, rfl, rfl, rfl⟩
      · rw [if_neg h3] at h ⊢
        cases hg : gather_attachment_payloads atts (some 8000000) with
        | error filename => exact ⟨rfl, rfl, rfl, rfl⟩
        | ok payloads =>
          rw [hg] at h
          dsimp only at h
          exact Option.noConfusion h

theorem close_preflight_frame (env : Env) (cfg : Config) (db : TicketsDB)
    (cache : TransCache) (g reason : String) (lang : Option String) (e : Preflight)
    (h : (execute_group_close env cfg db cache g reason lang).preflight = some e) :
    (execute_group_close env cfg db cache g reason lang).db = db ∧
    (execute_group_close env cfg db cache g reason lang).attempted = [] ∧
    (execute_group_close env cfg db cache g reason lang).closedThreads = [] ∧
    (execute_group_close env cfg db cache g reason lang).failures = [] := by
  unfold execute_group_close at h ⊢
  dsimp only at h ⊢
  by_cases h1 : pyStrip g = ""
  · rw [if_pos h1]
    exact ⟨rfl, rfl, rfl, rfl⟩
  · rw [if_neg h1] at h ⊢
    by_cases h2 : get_group_threads db (pyStrip g) = []
    · rw [if_pos h2]
      exact ⟨rfl, rfl, rfl, rfl⟩
    · rw [if_neg h2] at h ⊢
      by_cases h3 : reason.length > 1024
      · rw [if_pos h3]
        exact ⟨rfl, rfl, rfl, rfl⟩
      · rw [if_neg h3] at h ⊢
        by_cases h4 : ¬env.forumOk = true
        · rw [if_pos h4]
          exact ⟨rfl, rfl, rfl, rfl⟩
        · rw [if_neg h4] at h ⊢
          by_cases h5 : pyTruthy lang = true ∧ reason ≠ ""
          · rw [if_pos h5] at h ⊢
            by_cases h6 : (translate_to_language env.model cache reason lang).1.length > 1024
            · rw [if_pos h6]
              exact ⟨rfl, rfl, rfl, rfl⟩
            · rw [if_neg h6] at h
              dsimp only at h
              exact Option.noConfusion h
          · rw [if_neg h5] at h
            dsimp only at h
            exact Option.noConfusion h

/-- C6: every pre-flight validation failure of the bulk operations (blank
group name, empty target set, empty payload with no attachments,
attachment over the 8 MB ceiling, close reason over 1024 characters,
translated close reason over 1024 characters) makes the operation return
before any target is attempted and with the ticket registry and group
tag index unchanged; conjuncts pair each validation condition with the
rejection it produces and the frame it preserves. -/
theorem bulk_preflight_no_mutation (env : Env) (cfg : Config) (db : TicketsDB)
    (cache : TransCache) (g m reason : String) (lang : Option String)
    (atts : List (String × Nat)) :
    (∀ e, (execute_group_reply env db cache g m lang atts).preflight = some e →
      (execute_group_reply env db cache g m lang atts).db = db ∧
      (execute_group_reply env db cache g m lang atts).attempted = [] ∧
      (execute_group_reply env db cache g m lang atts).delivered = [] ∧
      (execute_group_reply env db cache g m lang atts).failures = []) ∧
    (∀ e, (execute_group_close env cfg db cache g reason lang).preflight = some e →
      (execute_group_close env cfg db cache g reason lang).db = db ∧
      (execute_group_close env cfg db cache g reason lang).attempted = [] ∧
      (execute_group_close env cfg db cache g reason lang).closedThreads = [] ∧
      (execute_group_close env cfg db cache g reason lang).failures = []) ∧
    (pyStrip g = "" →
      (execute_group_reply env db cache g m lang atts).preflight =
        some Preflight.provideGroupName ∧
      (execute_group_close env cfg db cache g reason lang).preflight =
        some Preflight.provideGroupName) ∧
    (pyStrip g ≠ "" → get_group_threads db (pyStrip g) = [] →
      (execute_group_reply env db cache g m lang atts).preflight =
        some Preflight.noTrackedTickets ∧
      (execute_group_close env cfg db cache g reason lang).preflight =
        some Preflight.noTrackedTickets) ∧
    (pyStrip g ≠ "" → get_group_threads db (pyStrip g) ≠ [] → m = "" → atts = [] →
      (execute_group_reply env db cache g m lang atts).preflight =
        some Preflight.providePayload) ∧
    (pyStrip g ≠ "" → get_group_threads db (pyStrip g) ≠ [] → ¬(m = "" ∧ atts = []) →
      (∃ a ∈ atts, a.2 > 8000000) →
      ∃ nm, (execute_group_reply env db cache g m lang atts).preflight =
        some (Preflight.attachmentTooLarge nm)) ∧
    (pyStrip g ≠ "" → get_group_threads db (pyStrip g) ≠ [] → reason.length > 1024 →
      (execute_group_close env cfg db cache g reason lang).preflight =
        some Preflight.reasonTooLong) ∧
    (pyStrip g ≠ "" → get_group_threads db (pyStrip g) ≠ [] → reason.length ≤ 1024 →
      env.forumOk = true → pyTruthy lang = true → reason ≠ "" →
      (translate_to_language env.model cache reason lang).1.length > 1024 →
      (execute_group_close env cfg db cache g reason lang).preflight =
        some Preflight.translatedReasonTooLong) := by
  refine ⟨reply_preflight_frame env db cache g m lang atts,
    close_preflight_frame env cfg db cache g reason lang, ?_, ?_, ?_, ?_, ?_, ?_⟩
  · intro h1
    constructor
    · unfold execute_group_reply
      dsimp only
      rw [if_pos h1]
    · unfold execute_group_close
      dsimp only
      rw [if_pos h1]
  · intro h1 h2
    constructor
    · unfold execute_group_reply
      dsimp only
      rw [if_neg h1, if_pos h2]
    · unfold execute_group_close
      dsimp only
      rw [if_neg h1, if_pos h2]
  · intro h1 h2 h3 h4
    unfold execute_group_reply
    dsimp only
    rw [if_neg h1, if_neg h2, if_pos ⟨h3, h4⟩]
  · intro h1 h2 h3 h4
    obtain ⟨nm, hnm⟩ := gather_error_of_oversize 8000000 atts h4
    refine ⟨nm, ?_⟩
    unfold execute_group_reply
    dsimp only
    rw [if_neg h1, if_neg h2, if_neg h3, hnm]
  · intro h1 h2 h3
    unfold execute_group_close
    dsimp only
    rw [if_neg h1, if_neg h2, if_pos h3]
  · intro h1 h2 h3 h4 h5 h6 h7
    unfold execute_group_close
    dsimp only
    rw [if_neg h1, if_neg h2, if_neg (by omega : ¬reason.length > 1024),
      if_neg (by simp [h4]), if_pos ⟨h5, h6⟩, if_pos h7]

/-- Witness for C6: a blank group name, an oversize attachment, and an
oversize close reason each reject the operation up front with the
scenario registry untouched. -/
theorem bulk_preflight_no_mutation_witness :
    (execute_group_reply testEnv testDb [] "  " "hi" none []).preflight =
      some Preflight.provideGroupName ∧
    (execute_group_reply testEnv testDb [] "  " "hi" none []).db = testDb ∧
    (execute_group_reply testEnv testDb [] "  " "hi" none []).attempted = [] ∧
    (∃ nm, (execute_group_reply testEnv testDb [] "launch" "hi" none
      [("big.png", 9000000)]).preflight = some (Preflight.attachmentTooLarge nm)) := by
  have h1 := bulk_preflight_no_mutation testEnv testCfg testDb [] "  " "hi" "r" none []
  have h2 := bulk_preflight_no_mutation testEnv testCfg testDb [] "launch" "hi" "r" none
    [("big.png", 9000000)]
  have hpre := (h1.2.2.1 (by decide)).1
  have hframe := h1.1 Preflight.provideGroupName hpre
  exact ⟨hpre, hframe.1, hframe.2.1,
    h2.2.2.2.2.2.1 (by decide) (by decide) (by decide) ⟨("big.png", 9000000), by decide⟩⟩

/-! ## Claim C2 — translated group reply with one unresolvable target -/

theorem replyTarget_good (env : Env) (st : ReplyLoopState) (t : Int)
    (h : GoodReplyTarget env st.db t) :
    replyTarget env st t =
      { st with attempted := st.attempted ++ [t], delivered := st.delivered ++ [t] } := by
  obtain ⟨th, u, hres, hid, hrow, hfetch, hdm, hpost⟩ := h
  have hdel : deliver_modmail_payload env u (ensure_thread_open env th).id =
      Except.ok (true, none) := by
    unfold deliver_modmail_payload
    rw [hdm]
    dsimp only
    rw [ensure_thread_open_id, hid, if_pos hpost]
  unfold replyTarget
  dsimp only
  rw [hres]
  dsimp only
  rw [hrow]
  dsimp only
  rw [if_pos hfetch, hdel]
  dsimp only
  rw [ensure_thread_open_id, hid]

theorem replyTarget_bad (env : Env) (st : ReplyLoopState) (t : Int)
    (h : resolveT env t = none) :
    replyTarget env st t =
      { st with db := remove_thread_from_groups st.db t,
                attempted := st.attempted ++ [t],
                failures := st.failures ++ [Failure.targetNoLongerExists t] } := by
  unfold replyTarget
  dsimp only
  rw [h]

theorem groupReplyLoop_nil (env : Env) (st : ReplyLoopState) :
    groupReplyLoop env [] st = st := rfl

theorem groupReplyLoop_cons (env : Env) (t : Int) (rest : List Int) (st : ReplyLoopState) :
    groupReplyLoop env (t :: rest) st =
      if (replyTarget env st t).raised = true then replyTarget env st t
      else groupReplyLoop env rest (replyTarget env st t) := rfl

theorem groupReplyLoop_good_append (env : Env) :
    ∀ (pre rest : List Int) (st : ReplyLoopState), st.raised = false →
    (∀ t ∈ pre, GoodReplyTarget env st.db t) →
    groupReplyLoop env (pre ++ rest) st =
      groupReplyLoop env rest
        { st with attempted := st.attempted ++ pre, delivered := st.delivered ++ pre } := by
  intro pre
  induction pre with
  | nil =>
    intro rest st hr hgood
    simp
  | cons t pre2 ih =>
    intro rest st hr hgood
    have h1 : replyTarget env st t =
        { st with attempted := st.attempted ++ [t], delivered := st.delivered ++ [t] } :=
      replyTarget_good env st t (hgood t (List.mem_cons_self t pre2))
    show groupReplyLoop env (t :: (pre2 ++ rest)) st = _
    rw [groupReplyLoop_cons, h1]
    dsimp only
    rw [hr]
    simp only [Bool.false_eq_true, if_false]
    rw [show st.attempted ++ t :: pre2 = (st.attempted ++ [t]) ++ pre2 from by simp,
      show st.delivered ++ t :: pre2 = (st.delivered ++ [t]) ++ pre2 from by simp]
    exact ih rest _ rfl (fun t2 ht2 => hgood t2 (List.mem_cons_of_mem t ht2))

theorem groupReplyLoop_all_good (env : Env) (pre : List Int) (st : ReplyLoopState)
    (hr : st.raised = false) (hgood : ∀ t ∈ pre, GoodReplyTarget env st.db t) :
    groupReplyLoop env pre st =
      { st with attempted := st.attempted ++ pre, delivered := st.delivered ++ pre } := by
  have h := groupReplyLoop_good_append env pre [] st hr hgood
  rw [List.append_nil] at h
  exact h

theorem gather_ok_of_within (limit : Nat) :
    ∀ (atts : List (String × Nat)), (∀ a ∈ atts, ¬a.2 > limit) →
    gather_attachment_payloads atts (some limit) = Except.ok atts := by
  intro atts
  induction atts with
  | nil =>
    intro _
    rfl
  | cons a rest ih =>
    intro h
    obtain ⟨nm, sz⟩ := a
    unfold gather_attachment_payloads
    dsimp only
    rw [if_neg (h (nm, sz) (List.mem_cons_self _ _)),
      ih (fun b hb => h b (List.mem_cons_of_mem _ hb))]

theorem mem_count_one_split {x : Int} {l : List Int} (hmem : x ∈ l)
    (hcount : l.count x = 1) :
    ∃ l1 l2, l = l1 ++ x :: l2 ∧ x ∉ l1 ∧ x ∉ l2 := by
  obtain ⟨l1, l2, rfl⟩ := List.append_of_mem hmem
  rw [List.count_append, List.count_cons_self] at hcount
  have h1 : l1.count x = 0 := by omega
  have h2 : l2.count x = 0 := by omega
  exact ⟨l1, l2, rfl, List.count_eq_zero.mp h1, List.count_eq_zero.mp h2⟩

/-- C2: a translated group reply over a tag set whose threads are all
deliverable except exactly one unresolvable thread translates the
payload exactly once before the loop, delivers to the other N−1 targets,
records exactly one `target-no-longer-exists` failure for the
unresolvable thread, and removes that thread's rows from the group tag
index (leaving the ticket registry untouched). -/
theorem translated_group_reply_scenario (env : Env) (db : TicketsDB) (cache : TransCache)
    (groupName message : String) (language : Option String) (badT : Int)
    (hg : pyStrip groupName ≠ "")
    (hmem : badT ∈ get_group_threads db (pyStrip groupName))
    (hcount : (get_group_threads db (pyStrip groupName)).count badT = 1)
    (hbad : resolveT env badT = none)
    (hgood : ∀ t ∈ get_group_threads db (pyStrip groupName), t ≠ badT →
      GoodReplyTarget env db t)
    (hmsg : message ≠ "")
    (hlang : pyTruthy language = true) :
    (execute_group_reply env db cache groupName message language []).preflight = none ∧
    (execute_group_reply env db cache groupName message language []).payloadTranslations =
      1 ∧
    (execute_group_reply env db cache groupName message language []).raised = false ∧
    (execute_group_reply env db cache groupName message language []).delivered.length =
      (get_group_threads db (pyStrip groupName)).length - 1 ∧
    (execute_group_reply env db cache groupName message language []).failures =
      [Failure.targetNoLongerExists badT] ∧
    (execute_group_reply env db cache groupName message language []).db.groupTags =
      db.groupTags.filter (fun r => r.2 != badT) ∧
    (execute_group_reply env db cache groupName message language []).db.tickets =
      db.tickets := by
  have hts : get_group_threads db (pyStrip groupName) ≠ [] := by
    intro h0
    rw [h0] at hmem
    exact absurd hmem (List.not_mem_nil badT)
  obtain ⟨pre, post, hsplit, hpreNot, hpostNot⟩ := mem_count_one_split hmem hcount
  have hgpre : ∀ t ∈ pre, GoodReplyTarget env db t := by
    intro t ht
    refine hgood t ?_ ?_
    · rw [hsplit]
      exact List.mem_append_left _ ht
    · intro he
      exact hpreNot (he ▸ ht)
  have hgpost : ∀ t ∈ post, GoodReplyTarget env (remove_thread_from_groups db badT) t := by
    intro t ht
    refine hgood t ?_ ?_
    · rw [hsplit]
      exact List.mem_append_right _ (List.mem_cons_of_mem _ ht)
    · intro he
      exact hpostNot (he ▸ ht)
  have hloop : groupReplyLoop env (get_group_threads db (pyStrip groupName))
      (⟨db, [], [], [], false⟩ : ReplyLoopState) =
      ⟨remove_thread_from_groups db badT, (([] ++ pre) ++ [badT]) ++ post,
        ([] ++ pre) ++ post, [] ++ [Failure.targetNoLongerExists badT], false⟩ := by
    rw [hsplit]
    rw [groupReplyLoop_good_append env pre (badT :: post) ⟨db, [], [], [], false⟩ rfl hgpre]
    rw [groupReplyLoop_cons, replyTarget_bad env _ badT hbad]
    dsimp only
    simp only [Bool.false_eq_true, if_false]
    rw [groupReplyLoop_all_good env post _ rfl hgpost]
  unfold execute_group_reply
  dsimp only
  rw [if_neg hg, if_neg hts,
    if_neg (show ¬(message = "" ∧ ([] : List (String × Nat)) = []) from by simp [hmsg]),
    show gather_attachment_payloads [] (some 8000000) = Except.ok [] from rfl]
  dsimp only
  rw [if_pos ⟨hlang, hmsg⟩, hloop]
  refine ⟨rfl, rfl, rfl, ?_, rfl, rfl, rfl⟩
  have hlen : (get_group_threads db (pyStrip groupName)).length =
      pre.length + post.length + 1 := by
    rw [hsplit]
    simp
    omega
  simp only [List.nil_append, List.length_append]
  omega

/-- Witness for C2: the spec scenario — group `launch` tags 101, 102 and
103, thread 102 is unresolvable, the French reply translates once,
delivers twice, records one classified failure and drops 102 from the
index. -/
theorem translated_group_reply_scenario_witness :
    (execute_group_reply testEnv testDb [] "launch" "bonjour" (some "French")
      []).payloadTranslations = 1 ∧
    (execute_group_reply testEnv testDb [] "launch" "bonjour" (some "French")
      []).delivered.length = 2 ∧
    (execute_group_reply testEnv testDb [] "launch" "bonjour" (some "French")
      []).failures = [Failure.targetNoLongerExists 102] ∧
    (execute_group_reply testEnv testDb [] "launch" "bonjour" (some "French")
      []).db.groupTags = testDb.groupTags.filter (fun r => r.2 != 102) := by
  have h := translated_group_reply_scenario testEnv testDb [] "launch" "bonjour"
    (some "French") 102 (by decide) (by decide) (by decide) (by decide)
    (by
      intro t ht hne
      rw [show get_group_threads testDb (pyStrip "launch") = [101, 102, 103] from by
        decide] at ht
      have ht2 : t = 101 ∨ t = 102 ∨ t = 103 := by simpa using ht
      rcases ht2 with h1 | h1 | h1
      · subst h1
        exact ⟨testThread 101, 11, by decide, rfl, by decide, rfl, rfl, rfl⟩
      · exact absurd h1 hne
      · subst h1
        exact ⟨testThread 103, 13, by decide, rfl, by decide, rfl, rfl, rfl⟩)
    (by decide) (by decide)
  exact ⟨h.2.1, by rw [h.2.2.2.1]; decide, h.2.2.2.2.1, h.2.2.2.2.2.1⟩

/-! ## Claim C3 — at most one ticket row per correspondent -/

theorem ticketsLookupByUser_mem (db : TicketsDB) (u c : Int)
    (h : ticketsLookupByUser db u = some c) : (u, c) ∈ db.tickets := by
  unfold ticketsLookupByUser at h
  cases hf : db.tickets.find? (fun r => r.1 == u) with
  | none =>
    rw [hf] at h
    exact absurd h (by simp)
  | some r =>
    rw [hf] at h
    have hr2 : r.2 = c := by simpa using h
    have hmem := List.mem_of_find?_eq_some hf
    have hp := List.find?_some hf
    have hr1 : r.1 = u := by simpa using hp
    have : r = (u, c) := by
      obtain ⟨r1, r2⟩ := r
      simp_all
    rw [← this]
    exact hmem

theorem filter_le_one_eq {α : Type} (l : List α) (p : α → Bool) (a b : α)
    (h : (l.filter p).length ≤ 1) (ha : a ∈ l) (hpa : p a = true) (hb : b ∈ l)
    (hpb : p b = true) : a = b := by
  have ha2 : a ∈ l.filter p := List.mem_filter.mpr ⟨ha, hpa⟩
  have hb2 : b ∈ l.filter p := List.mem_filter.mpr ⟨hb, hpb⟩
  cases hf : l.filter p with
  | nil =>
    rw [hf] at ha2
    exact absurd ha2 (List.not_mem_nil a)
  | cons x rest =>
    rw [hf] at ha2 hb2 h
    cases rest with
    | nil =>
      have hax : a = x := by simpa using ha2
      have hbx : b = x := by simpa using hb2
      rw [hax, hbx]
    | cons y rest2 => simp at h

theorem countUser_delete_le (db : TicketsDB) (cid u : Int) :
    countUser (ticketsDeleteByChannel db cid) u ≤ countUser db u := by
  unfold countUser ticketsDeleteByChannel
  exact List.Sublist.length_le (List.Sublist.filter _ (List.filter_sublist _))

theorem atMostOne_delete (db : TicketsDB) (cid : Int) (h : AtMostOneTicket db) :
    AtMostOneTicket (ticketsDeleteByChannel db cid) :=
  fun u => le_trans (countUser_delete_le db cid u) (h u)

theorem countUser_delete_self (db : TicketsDB) (u cid : Int)
    (hl : ticketsLookupByUser db u = some cid) (h1 : countUser db u ≤ 1) :
    countUser (ticketsDeleteByChannel db cid) u = 0 := by
  unfold countUser ticketsDeleteByChannel
  dsimp only
  rw [List.length_eq_zero, List.filter_eq_nil_iff]
  intro r hr
  have hmem := List.mem_filter.mp hr
  intro hru
  have hr1 : r.1 = u := by simpa using hru
  have hrow := ticketsLookupByUser_mem db u cid hl
  have heq : r = (u, cid) :=
    filter_le_one_eq db.tickets (fun x => x.1 == u) r (u, cid) h1 hmem.1
      (by simpa using hr1) hrow (by simp)
  rw [heq] at hmem
  simp at hmem

theorem countUser_insert (db : TicketsDB) (v c u : Int) :
    countUser (ticketsInsert db v c) u = countUser db u + (if u = v then 1 else 0) := by
  unfold countUser ticketsInsert
  dsimp only
  rw [List.filter_append, List.length_append]
  congr 1
  by_cases h : u = v
  · subst h
    simp
  · simp [List.filter_cons, show ((v : Int) == u) = false from by
      simpa using (Ne.symm h), h]

theorem countUser_zero_of_lookup_none (db : TicketsDB) (u : Int)
    (h : ticketsLookupByUser db u = none) : countUser db u = 0 := by
  unfold ticketsLookupByUser at h
  have hfind : db.tickets.find? (fun r => r.1 == u) = none := by
    cases hf : db.tickets.find? (fun r => r.1 == u) with
    | none => rfl
    | some r =>
      rw [hf] at h
      exact absurd h (by simp)
  unfold countUser
  rw [List.length_eq_zero, List.filter_eq_nil_iff]
  intro r hr
  exact List.find?_eq_none.mp hfind r hr

theorem atMostOne_insert (db : TicketsDB) (u c : Int) (h : AtMostOneTicket db)
    (h0 : countUser db u = 0) : AtMostOneTicket (ticketsInsert db u c) := by
  intro v
  rw [countUser_insert]
  by_cases hv : v = u
  · subst hv
    rw [h0]
    simp
  · have := h v
    simp [hv]
    omega

theorem ticket_creator_finish_db (env : Env) (db : TicketsDB) (u : Int) (created : Chan) :
    (ticket_creator_finish env db u created).2 =
      ticketsInsert db u (ensure_thread_ready env.readyAttempts created).id := by
  unfold ticket_creator_finish
  by_cases h : env.logSendOk = true
  · rw [if_pos h]
  · rw [if_neg h]

theorem ticket_creator_atMostOne (env : Env) (db : TicketsDB) (u : Int)
    (h : AtMostOneTicket db) (h0 : countUser db u = 0) :
    AtMostOneTicket (ticket_creator env db u).2 := by
  unfold ticket_creator
  cases env.createThread u with
  | ok created =>
    rw [ticket_creator_finish_db]
    exact atMostOne_insert db u _ h h0
  | error e =>
    cases e with
    | discoveryFilter =>
      dsimp only
      cases env.createThreadRetry u with
      | ok created =>
        rw [ticket_creator_finish_db]
        exact atMostOne_insert db u _ h h0
      | error e2 => exact h
    | otherHttp => exact h

theorem get_or_create_atMostOne (env : Env) (db : TicketsDB) (u : Int)
    (h : AtMostOneTicket db) :
    AtMostOneTicket (get_or_create_ticket_for_user env db u).2 := by
  unfold get_or_create_ticket_for_user
  cases hl : ticketsLookupByUser db u with
  | none => exact ticket_creator_atMostOne env db u h (countUser_zero_of_lookup_none db u hl)
  | some cid =>
    dsimp only
    cases hres : resolveT env cid with
    | none =>
      exact ticket_creator_atMostOne env _ u (atMostOne_delete db cid h)
        (countUser_delete_self db u cid hl (h u))
    | some th => exact h

theorem send_command_rest_atMostOne (env : Env) (db : TicketsDB) (u : Int)
    (atts : List (String × Nat)) (h : AtMostOneTicket db) (h0 : countUser db u = 0) :
    AtMostOneTicket (send_command_rest env db u atts).2 := by
  unfold send_command_rest
  by_cases h1 : (!env.mutualGuild u) = true
  · rw [if_pos h1]
    exact h
  · rw [if_neg h1]
    by_cases h2 : (atts.any (fun a => a.2 ≥ env.filesizeLimit)) = true
    · rw [if_pos h2]
      exact h
    · rw [if_neg h2]
      cases env.dm u with
      | forbidden => exact h
      | httpError => exact h
      | delivered =>
        dsimp only
        cases htc : ticket_creator env db u with
        | mk r db1 =>
          have hpres := ticket_creator_atMostOne env db u h h0
          rw [htc] at hpres
          cases r with
          | error e => exact hpres
          | ok thread =>
            dsimp only
            by_cases hp : env.threadPost thread.id = true
            · rw [if_pos hp]
              exact hpres
            · rw [if_neg hp]
              exact hpres

theorem send_command_atMostOne (env : Env) (db : TicketsDB) (u : Int)
    (atts : List (String × Nat)) (h : AtMostOneTicket db) :
    AtMostOneTicket (send_command env db u atts).2 := by
  unfold send_command
  by_cases h1 : u = env.botUserId
  · rw [if_pos h1]
    exact h
  · rw [if_neg h1]
    cases hl : ticketsLookupByUser db u with
    | none =>
      exact send_command_rest_atMostOne env db u atts h
        (countUser_zero_of_lookup_none db u hl)
    | some cid =>
      dsimp only
      cases (match env.getChannel cid with
             | some c => some c
             | none => env.guildGetThread cid) with
      | some c => exact h
      | none =>
        dsimp only
        cases env.guildFetchChannel cid with
        | ok c => exact h
        | error e =>
          exact send_command_rest_atMostOne env _ u atts (atMostOne_delete db cid h)
            (countUser_delete_self db u cid hl (h u))

theorem on_message_dm_atMostOne (env : Env) (db : TicketsDB) (u : Int)
    (h : AtMostOneTicket db) (hcons : EnvChannelConsistent env) :
    AtMostOneTicket (on_message_dm env db u).2 := by
  unfold on_message_dm
  cases hl : ticketsLookupByUser db u with
  | none => exact ticket_creator_atMostOne env db u h (countUser_zero_of_lookup_none db u hl)
  | some cid =>
    dsimp only
    cases hc : (match env.getChannel cid with
                | some c => some c
                | none => env.guildGetThread cid) with
    | some c =>
      have hcid : c.id = cid := by
        cases hg : env.getChannel cid with
        | some c2 =>
          rw [hg] at hc
          have hc2 : c2 = c := by simpa using hc
          rw [← hc2]
          exact hcons.1 cid c2 hg
        | none =>
          rw [hg] at hc
          have hc2 : env.guildGetThread cid = some c := by simpa using hc
          exact hcons.2.1 cid c hc2
      dsimp only
      by_cases ha : c.isThread = true ∧ c.archived = true
      · rw [if_pos ha]
        refine ticket_creator_atMostOne env _ u (atMostOne_delete db c.id h) ?_
        rw [hcid]
        exact countUser_delete_self db u cid hl (h u)
      · rw [if_neg ha]
        exact h
    | none =>
      dsimp only
      cases hf : env.guildFetchChannel cid with
      | ok c =>
        have hcid : c.id = cid := hcons.2.2 cid c hf
        dsimp only
        by_cases ha : c.isThread = true ∧ c.archived = true
        · rw [if_pos ha]
          refine ticket_creator_atMostOne env _ u (atMostOne_delete db c.id h) ?_
          rw [hcid]
          exact countUser_delete_self db u cid hl (h u)
        · rw [if_neg ha]
          exact h
      | error e =>
        dsimp only
        exact ticket_creator_atMostOne env _ u (atMostOne_delete db cid h)
          (countUser_delete_self db u cid hl (h u))

/-- C3: each ticket-creation entry point preserves the at-most-one-row
invariant of the ticket registry (for `on_message` under the platform
sanity assumption that cached/fetched channels carry the id they were
looked up by), and when the correspondent's registered thread is still
resolvable the entry points reuse or surface it instead of inserting a
second row: `get_or_create_ticket_for_user` returns the existing thread
with the registry unchanged, and the staff `send` command reports the
existing ticket and stops. -/
theorem single_ticket_per_correspondent (env : Env) (db : TicketsDB) (u : Int)
    (atts : List (String × Nat)) (cid : Int) (th : Chan) :
    (AtMostOneTicket db → AtMostOneTicket (get_or_create_ticket_for_user env db u).2) ∧
    (AtMostOneTicket db → AtMostOneTicket (send_command env db u atts).2) ∧
    (AtMostOneTicket db → EnvChannelConsistent env →
      AtMostOneTicket (on_message_dm env db u).2) ∧
    (ticketsLookupByUser db u = some cid → resolveT env cid = some th →
      get_or_create_ticket_for_user env db u =
        (Except.ok (ensure_thread_open env th), db)) ∧
    (u ≠ env.botUserId → ticketsLookupByUser db u = some cid →
      (match env.getChannel cid with
       | some c => some c
       | none => env.guildGetThread cid) = some th →
      send_command env db u atts = (SendCmdResult.alreadyExists cid, db)) := by
  refine ⟨get_or_create_atMostOne env db u, send_command_atMostOne env db u atts,
    on_message_dm_atMostOne env db u, ?_, ?_⟩
  · intro hl hres
    simp only [get_or_create_ticket_for_user, hl, hres]
  · intro hu hl hc
    unfold send_command
    rw [if_neg hu]
    simp only [hl, hc]

/-- Witness for C3: creating a ticket for a fresh user in an empty
registry keeps the invariant, and user 11 (whose thread 101 still
resolves) gets the existing thread back with the registry unchanged. -/
theorem single_ticket_per_correspondent_witness :
    AtMostOneTicket (get_or_create_ticket_for_user testEnv ⟨[], []⟩ 42).2 ∧
    get_or_create_ticket_for_user testEnv testDb 11 =
      (Except.ok (ensure_thread_open testEnv (testThread 101)), testDb) := by
  constructor
  · exact (single_ticket_per_correspondent testEnv ⟨[], []⟩ 42 [] 0 (testThread 0)).1
      (by intro u; simp [countUser])
  · exact (single_ticket_per_correspondent testEnv testDb 11 [] 101
      (testThread 101)).2.2.2.1 (by decide) (by decide)

end ModMail
